import Mathlib

/-!
Formal model (shallow embedding) of the Ollama daemon proxy
(`scripts/ts/ollama-proxy.ts`) and the ollama transformer
(`src/transformers/ollama.ts`) of claude-code-router, together with
theorems about the request/response translation and the retry policy.

Conventions of the embedding:
* JavaScript objects become Lean structures; a field that the source may
  omit (`field?`) becomes an `Option`.
* JavaScript numbers carried by the requests are modelled as `Nat`
  (token counts) and `ℚ` (sampling parameters); no arithmetic other than
  addition ever happens on them in the source.
* JavaScript truthiness on the modelled values: `undefined` (`none`),
  `0`, and the empty string are falsy, everything else is truthy.
  `x || d` becomes the `orNat` / `orRat` / `orStr` helpers below.
* The network is modelled as an oracle `Nat → AttemptOutcome` giving the
  outcome of each successive attempt of `callOllama`; the value returned
  by `callOllama` is the settled promise together with the list of
  backoff delays (the `setTimeout` durations, in ms) it scheduled.
-/

namespace CCR

/-- One chat message (`{role, content}`). -/
structure Msg where
  role : String
  content : String
deriving DecidableEq

/-- Opaque model of one entry of an OpenAI `tools` array: the transformer
only forwards the array, never inspects an entry. -/
structure Tool where
  payload : String
deriving DecidableEq

/-- The OpenAI-style request body read by `convertOpenAIToOllama` and by
the ollama transformer's `transformRequest`. -/
structure OpenAIRequest where
  model : String
  messages : List Msg
  max_tokens : Option Nat
  temperature : Option ℚ
  top_p : Option ℚ
  stream : Option Bool
  tools : Option (List Tool)
deriving DecidableEq

/-- JavaScript `x || d` on an optional number (`0` and `undefined` are
falsy). -/
def orNat : Option Nat → Nat → Nat
  | none, d => d
  | some n, d => if n = 0 then d else n

/-- JavaScript `x || d` on an optional rational (`0` and `undefined` are
falsy). -/
def orRat : Option ℚ → ℚ → ℚ
  | none, d => d
  | some q, d => if q = 0 then d else q

/-- JavaScript `x || d` on an optional string (`""` and `undefined` are
falsy). -/
def orStr : Option String → String → String
  | none, d => d
  | some s, d => if s = "" then d else s

/-- JavaScript truthiness of an optional string field. -/
def isTruthyStr : Option String → Bool
  | none => false
  | some s => s != ""

/-- The sampling options object built by `convertOpenAIToOllama`. -/
structure OllamaOptions where
  num_predict : Nat
  temperature : ℚ
  top_p : ℚ
deriving DecidableEq

/-- The daemon request built by `convertOpenAIToOllama`: a flattened
`prompt`, `stream: false`, and the `options` object.  (The shape has no
`messages` field: the proxy targets the daemon's `/api/generate`
endpoint.) -/
structure OllamaGenRequest where
  model : String
  prompt : String
  stream : Bool
  options : OllamaOptions
deriving DecidableEq

/-- `model.replace(/^ollama,/, '')`: the regex is anchored, so at most
one leading occurrence of `"ollama,"` is removed. -/
def stripProvider (model : String) : String :=
  if ("ollama,".data).isPrefixOf model.data then ⟨model.data.drop 7⟩ else model

/-- `convertOpenAIToOllama` of `scripts/ts/ollama-proxy.ts` (lines
132-151): strips the provider tag from the model, flattens the messages
into a single `role: content` prompt joined by newlines, and fills the
options with `|| `-defaults 100 / 0.7 / 0.9. -/
def convertOpenAIToOllama (r : OpenAIRequest) : OllamaGenRequest :=
  { model := stripProvider r.model
    prompt := String.intercalate "\n" (r.messages.map fun m => m.role ++ ": " ++ m.content)
    stream := false
    options :=
      { num_predict := orNat r.max_tokens 100
        temperature := orRat r.temperature (7/10)
        top_p := orRat r.top_p (9/10) } }

/-- The flattening the amended reading of the request-translation claim
describes, stated independently of the implementation: each message
renders as a `role: content` line and consecutive messages are joined by
a newline. -/
def flattenedPrompt : List Msg → String
  | [] => ""
  | [m] => m.role ++ ": " ++ m.content
  | m :: m' :: ms => m.role ++ ": " ++ m.content ++ "\n" ++ flattenedPrompt (m' :: ms)

/-- The parsed JSON body of a daemon reply (interface `OllamaResponse`
plus the `response` and `error` fields the proxy actually reads). -/
structure OllamaGenResponse where
  model : Option String
  created_at : Option String
  response : Option String
  done : Option Bool
  done_reason : Option String
  prompt_eval_count : Option Nat
  eval_count : Option Nat
  error : Option String
deriving DecidableEq

/-- Token usage of the canonical chat-completion reply. -/
structure Usage where
  prompt_tokens : Nat
  completion_tokens : Nat
  total_tokens : Nat
deriving DecidableEq

/-- One choice of the canonical chat-completion reply. -/
structure ChatChoice where
  index : Nat
  message : Msg
  finish_reason : String
deriving DecidableEq

/-- The canonical chat-completion reply built by `convertOllamaToOpenAI`. -/
structure ChatResponse where
  id : String
  object : String
  created : Nat
  model : String
  choices : List ChatChoice
  usage : Usage
deriving DecidableEq

/-- `convertOllamaToOpenAI` of `scripts/ts/ollama-proxy.ts` (lines
153-173).  `now` stands for `Date.now()` (milliseconds). -/
def convertOllamaToOpenAI (resp : OllamaGenResponse) (orig : OpenAIRequest)
    (now : Nat) : ChatResponse :=
  { id := "chatcmpl-" ++ toString now
    object := "chat.completion"
    created := now / 1000
    model := orig.model
    choices := [
      { index := 0
        message := { role := "assistant", content := orStr resp.response "" }
        finish_reason := orStr resp.done_reason "stop" }]
    usage :=
      { prompt_tokens := orNat resp.prompt_eval_count 0
        completion_tokens := orNat resp.eval_count 0
        total_tokens := orNat resp.prompt_eval_count 0 + orNat resp.eval_count 0 } }

/-! ### The retry loop of `callOllama` (lines 175-266) -/

/-- Fixed retry budget of `callOllama` (`const maxRetries = 3`). -/
def maxRetries : Nat := 3

/-- Base backoff delay of `callOllama` in milliseconds
(`const baseDelay = 1000`). -/
def baseDelay : Nat := 1000

/-- Daemon endpoint targeted by `callOllama` (`path: '/api/generate'`). -/
def ollamaPath : String := "/api/generate"

/-- The error object inspected by `shouldRetry`: a Node transport error
carries a `code`, a rejected HTTP reply carries a `statusCode`. -/
structure ErrObj where
  code : Option String
  statusCode : Option Nat
deriving DecidableEq

/-- `shouldRetry` of `scripts/ts/ollama-proxy.ts` (lines 268-278).
`proxyError.statusCode && proxyError.statusCode >= 500` is falsy when
`statusCode` is `undefined` or `0`. -/
def shouldRetry (e : ErrObj) : Bool :=
  if e.code = some "ECONNREFUSED" ∨ e.code = some "ENOTFOUND" ∨ e.code = some "TIMEOUT" then
    true
  else
    match e.statusCode with
    | some sc => if sc = 0 then false else decide (500 ≤ sc)
    | none => false

/-- Outcome of one network attempt of `callOllama`:
* `transportError c` — the request emitted `error` with `error.code = c`
  (connection refused, DNS failure, ...);
* `timeout` — the 30 s socket timeout fired;
* `httpResponse sc body` — a complete HTTP reply with status `sc` whose
  body parses to `body` (for non-200 statuses the parsed body is never
  inspected by the source, so carrying it is harmless). -/
inductive AttemptOutcome where
  | transportError (code : String)
  | timeout
  | httpResponse (statusCode : Nat) (body : OllamaGenResponse)
deriving DecidableEq

/-- The rejection values `callOllama` can settle with.  `modelError`
carries the `Ollama model error: ...` message (its `statusCode` is 400,
see `errStatusCode`); `apiError` carries the upstream HTTP status. -/
inductive ProxyError where
  | modelError (msg : String)
  | apiError (statusCode : Nat)
  | transport (code : String)
  | timedOut
deriving DecidableEq

/-- The `error.statusCode` field attached to each rejection by the
source (400 for a 200-with-error body, the upstream status for a non-200
reply, nothing for transport errors and timeouts). -/
def errStatusCode : ProxyError → Option Nat
  | .modelError _ => some 400
  | .apiError sc => some sc
  | .transport _ => none
  | .timedOut => none

/-- A settled promise of `callOllama`. -/
inductive CallResult where
  | resolved (body : OllamaGenResponse)
  | rejected (e : ProxyError)
deriving DecidableEq

/-- Recursion worker for `callOllama`.  `budget` is the number of
retries still allowed, i.e. `maxRetries - retryCount`; the source's
guard `retryCount < maxRetries` is exactly `budget ≠ 0`.  Returns the
settled result together with the list of scheduled backoff delays. -/
def callOllamaAux (oracle : Nat → AttemptOutcome) :
    Nat → Nat → CallResult × List Nat
  | budget, retryCount =>
    match oracle retryCount with
    | .httpResponse sc body =>
      if sc = 200 then
        if isTruthyStr body.error then
          (.rejected (.modelError ("Ollama model error: " ++ body.error.getD "")), [])
        else
          (.resolved body, [])
      else
        (.rejected (.apiError sc), [])
    | .transportError code =>
      match budget with
      | b + 1 =>
        if shouldRetry { code := some code, statusCode := none } then
          let r := callOllamaAux oracle b (retryCount + 1)
          (r.1, baseDelay * 2 ^ retryCount :: r.2)
        else
          (.rejected (.transport code), [])
      | 0 => (.rejected (.transport code), [])
    | .timeout =>
      match budget with
      | b + 1 =>
        let r := callOllamaAux oracle b (retryCount + 1)
        (r.1, baseDelay * 2 ^ retryCount :: r.2)
      | 0 => (.rejected .timedOut, [])

/-- `callOllama` of `scripts/ts/ollama-proxy.ts` (lines 175-266), with
the attempt outcomes supplied by `oracle`.  A 200 reply whose body has a
truthy `error` field rejects with a 400 `modelError` (lines 204-211); any
other status rejects with `apiError` (lines 214-218) — neither consults
the retry logic, which lives only in the `error` and `timeout` handlers
(lines 226-261).  A transport error retries when `retryCount <
maxRetries` and `shouldRetry` accepts it; a timeout retries whenever
`retryCount < maxRetries`; each retry schedules a delay of
`baseDelay * 2 ^ retryCount` ms.  (The `JSON.parse` failure path, which
rejects with the parse error, is outside the modelled input space: the
oracle always supplies a parsed body.) -/
def callOllama (oracle : Nat → AttemptOutcome) (retryCount : Nat := 0) :
    CallResult × List Nat :=
  callOllamaAux oracle (maxRetries - retryCount) retryCount

/-! ### The ollama transformer (`src/transformers/ollama.ts`) -/

/-- Name under which the transformer is registered. -/
def transformerName : String := "ollama"

/-- The endpoint the transformer declares (`endpoint: '/api/chat'`). -/
def transformerEndpoint : String := "/api/chat"

/-- JavaScript `if (x) { out.f = x }` on an optional count: the field is
copied only when truthy. -/
def truthyNat : Option Nat → Option Nat
  | some n => if n = 0 then none else some n
  | none => none

/-- JavaScript `if (x) { out.f = x }` on an optional rational. -/
def truthyRat : Option ℚ → Option ℚ
  | some q => if q = 0 then none else some q
  | none => none

/-- The Ollama chat request body built by the transformer's
`transformRequest`. -/
structure OllamaChatRequest where
  model : String
  messages : List Msg
  stream : Bool
  max_tokens : Option Nat
  temperature : Option ℚ
  top_p : Option ℚ
  tools : Option (List Tool)
deriving DecidableEq

/-- The `HttpRequest` interface of `src/types/index.ts`, parametrised by
the body type (the source types `body` as `any`). -/
structure HttpRequest (β : Type) where
  body : β
  headers : List (String × String)
  method : String
  url : String
  params : Option (List (String × String))
  query : Option (List (String × String))
deriving DecidableEq

/-- The `HttpResponse` interface carries only behaviour (methods) plus
an optional `headers` record; the transformer treats it as opaque data. -/
structure HttpResponse where
  headers : Option (List (String × String))
deriving DecidableEq

/-- `transformRequest` of `src/transformers/ollama.ts` (lines 14-54):
rebuilds the body (`stream` defaults to `true` unless the incoming body
set it to exactly `false`; `max_tokens`/`temperature`/`top_p` are copied
only when truthy; `tools` is copied when present) and spreads the rest
of the request unchanged (`{...req, body: ollamaRequest}`). -/
def transformRequest (req : HttpRequest OpenAIRequest) : HttpRequest OllamaChatRequest :=
  { body :=
      { model := req.body.model
        messages := req.body.messages
        stream := req.body.stream != some false
        max_tokens := truthyNat req.body.max_tokens
        temperature := truthyRat req.body.temperature
        top_p := truthyRat req.body.top_p
        tools := req.body.tools }
    headers := req.headers
    method := req.method
    url := req.url
    params := req.params
    query := req.query }

/-- `transformResponse` of `src/transformers/ollama.ts` (lines 57-62):
returns the response unchanged. -/
def transformResponse (response : HttpResponse)
    (_req : HttpRequest OpenAIRequest) : HttpResponse :=
  response

/-! ### Concrete values used to instantiate the theorems -/

/-- A healthy daemon reply body. -/
def exOkBody : OllamaGenResponse :=
  { model := some "llama3"
    created_at := some "2024-01-01T00:00:00Z"
    response := some "hi"
    done := some true
    done_reason := none
    prompt_eval_count := some 3
    eval_count := some 5
    error := none }

/-- A 200 reply body carrying the daemon's in-body error signal. -/
def exErrBody : OllamaGenResponse :=
  { exOkBody with response := none, error := some "model not found" }

/-- A reply body with a non-canonical `done_reason`. -/
def exWeirdBody : OllamaGenResponse :=
  { exOkBody with done_reason := some "banana" }

/-- A two-message chat request with no sampling parameters. -/
def exTwoMsgReq : OpenAIRequest :=
  { model := "ollama,llama3"
    messages := [{ role := "user", content := "Hello" }, { role := "assistant", content := "Hi" }]
    max_tokens := none
    temperature := none
    top_p := none
    stream := none
    tools := none }

/-- The same request with an explicit `temperature: 0`. -/
def exZeroReq : OpenAIRequest :=
  { exTwoMsgReq with temperature := some 0 }

/-- The same request with nonzero sampling parameters supplied. -/
def exFullReq : OpenAIRequest :=
  { exTwoMsgReq with max_tokens := some 42, temperature := some 2, top_p := some 3 }

/-- An upstream that refuses the connection twice and then answers. -/
def exFailTwice : Nat → AttemptOutcome :=
  fun n => if n < 2 then .transportError "ECONNREFUSED" else .httpResponse 200 exOkBody

/-- A concrete HTTP request wrapping `exTwoMsgReq`. -/
def exHttpReq : HttpRequest OpenAIRequest :=
  { body := exTwoMsgReq
    headers := [("content-type", "application/json")]
    method := "POST"
    url := "/v1/chat/completions"
    params := none
    query := none }

/-! ### Helper lemmas -/

/-- `x || 0` on an optional count is just `getD 0`. -/
theorem orNat_zero (o : Option Nat) : orNat o 0 = o.getD 0 := by
  cases o with
  | none => rfl
  | some n => cases n <;> simp [orNat]

/-- Whatever the attempt outcomes, the delays scheduled by the retry
worker starting at retry count `rc` with budget `b` form a prefix of the
exponential schedule `baseDelay * 2 ^ rc, baseDelay * 2 ^ (rc+1), ...`
of length `b`. -/
theorem callOllamaAux_delays (oracle : Nat → AttemptOutcome) :
    ∀ b rc, (callOllamaAux oracle b rc).2
      <+: (List.range b).map (fun i => baseDelay * 2 ^ (rc + i)) := by
  intro b
  induction b with
  | zero =>
    intro rc
    cases ho : oracle rc <;> simp [callOllamaAux, ho]
    split_ifs <;> simp
  | succ b ih =>
    intro rc
    cases ho : oracle rc with
    | httpResponse sc body =>
      simp only [callOllamaAux, ho]
      split_ifs <;> simp
    | transportError code =>
      simp only [callOllamaAux, ho]
      split_ifs with h
      · rw [List.range_succ_eq_map, List.map_cons, List.map_map]
        refine List.cons_prefix_cons.mpr ⟨by simp, ?_⟩
        have h2 : ((fun i => baseDelay * 2 ^ (rc + i)) ∘ Nat.succ)
            = fun i => baseDelay * 2 ^ ((rc + 1) + i) := by
          funext i
          simp only [Function.comp]
          rw [show rc + i.succ = rc + 1 + i from by omega]
        rw [h2]
        exact ih (rc + 1)
      · simp
    | timeout =>
      simp only [callOllamaAux, ho]
      rw [List.range_succ_eq_map, List.map_cons, List.map_map]
      refine List.cons_prefix_cons.mpr ⟨by simp, ?_⟩
      have h2 : ((fun i => baseDelay * 2 ^ (rc + i)) ∘ Nat.succ)
          = fun i => baseDelay * 2 ^ ((rc + 1) + i) := by
        funext i
        simp only [Function.comp]
        rw [show rc + i.succ = rc + 1 + i from by omega]
      rw [h2]
      exact ih (rc + 1)

/-! ### Claim theorems -/

/-- C1: transport-level failures and timeouts are retried with at most 3
retries whose backoff delays always form a prefix of 1000 ms, 2000 ms,
4000 ms (base 1000 ms, doubling); an upstream refusing the connection
twice and then answering cleanly resolves after exactly 2 retries with
delays 1 s then 2 s; an upstream that always fails at transport level
(or always times out) is rejected after exactly 3 retries with delays
1 s, 2 s, 4 s. -/
theorem retry_transport_backoff :
    (∀ oracle : Nat → AttemptOutcome, (callOllama oracle 0).2 <+: [1000, 2000, 4000]) ∧
    (∀ (oracle : Nat → AttemptOutcome) (body : OllamaGenResponse) (code : String),
      code = "ECONNREFUSED" ∨ code = "ENOTFOUND" →
      isTruthyStr body.error = false →
      oracle 0 = .transportError code →
      oracle 1 = .transportError code →
      oracle 2 = .httpResponse 200 body →
      callOllama oracle 0 = (.resolved body, [1000, 2000])) ∧
    (∀ code : String, code = "ECONNREFUSED" ∨ code = "ENOTFOUND" →
      callOllama (fun _ => .transportError code) 0
        = (.rejected (.transport code), [1000, 2000, 4000])) ∧
    callOllama (fun _ => .timeout) 0 = (.rejected .timedOut, [1000, 2000, 4000]) := by
  refine ⟨?_, ?_, ?_, rfl⟩
  · intro oracle
    have e : (List.range 3).map (fun i => baseDelay * 2 ^ (0 + i)) = [1000, 2000, 4000] := by
      decide
    have h := callOllamaAux_delays oracle 3 0
    rw [e] at h
    exact h
  · intro oracle body code hcode herr ho0 ho1 ho2
    have hsr : shouldRetry { code := some code, statusCode := none } = true := by
      rcases hcode with h | h <;> subst h <;> decide
    simp [callOllama, callOllamaAux, ho0, ho1, ho2, hsr, herr, maxRetries, baseDelay]
  · intro code hcode
    rcases hcode with h | h <;> subst h <;> rfl

/-- Witness for C1: the connection-refused-twice upstream, the
always-refusing upstream, and the delay-schedule bound at a concrete
oracle. -/
theorem retry_transport_backoff_witness :
    callOllama exFailTwice 0 = (.resolved exOkBody, [1000, 2000]) ∧
    callOllama (fun _ => .transportError "ECONNREFUSED") 0
      = (.rejected (.transport "ECONNREFUSED"), [1000, 2000, 4000]) ∧
    (callOllama (fun _ => .timeout) 0).2 <+: [1000, 2000, 4000] :=
  ⟨retry_transport_backoff.2.1 exFailTwice exOkBody "ECONNREFUSED"
      (Or.inl rfl) rfl rfl rfl rfl,
   retry_transport_backoff.2.2.1 "ECONNREFUSED" (Or.inl rfl),
   retry_transport_backoff.1 (fun _ => .timeout)⟩

/-- C2: a daemon reply with HTTP status 200 whose body contains a truthy
`error` field makes `callOllama` reject immediately with the 400-coded
`Ollama model error`, scheduling no retry delay, whatever the remaining
retry budget (`rc` arbitrary). -/
theorem modelError_never_retried (oracle : Nat → AttemptOutcome) (rc : Nat)
    (body : OllamaGenResponse) (s : String) (hs : s ≠ "")
    (hb : body.error = some s) (ho : oracle rc = .httpResponse 200 body) :
    callOllama oracle rc
      = (.rejected (.modelError ("Ollama model error: " ++ s)), []) ∧
    errStatusCode (.modelError ("Ollama model error: " ++ s)) = some 400 := by
  constructor
  · simp only [callOllama]
    cases maxRetries - rc with
    | zero => simp [callOllamaAux, ho, isTruthyStr, hb, hs]
    | succ b => simp [callOllamaAux, ho, isTruthyStr, hb, hs]
  · rfl

/-- Witness for C2 at a concrete 200-with-error upstream, with five
retries worth of budget already consumed to spare. -/
theorem modelError_never_retried_witness :
    callOllama (fun _ => .httpResponse 200 exErrBody) 5
      = (.rejected (.modelError ("Ollama model error: " ++ "model not found")), []) ∧
    errStatusCode (.modelError ("Ollama model error: " ++ "model not found")) = some 400 :=
  modelError_never_retried (fun _ => .httpResponse 200 exErrBody) 5 exErrBody
    "model not found" (by decide) rfl rfl

/-- C3: `shouldRetry` does classify a 500 status as retryable, but a
daemon reply with HTTP status 500 is rejected by `callOllama` on the
spot with zero scheduled retries — the 5xx branch of `shouldRetry` is
unreachable from the response path, contradicting the retry policy the
code itself documents. -/
theorem fiveHundred_rejected_without_retry :
    shouldRetry { code := none, statusCode := some 500 } = true ∧
    callOllama (fun _ => .httpResponse 500 exOkBody) 0
      = (.rejected (.apiError 500), []) ∧
    errStatusCode (.apiError 500) = some 500 :=
  ⟨by decide, rfl, rfl⟩

/-- Counterexample to C4 as stated: at a concrete two-message request
the translated daemon request carries the newline-flattened prompt (the
`OllamaGenRequest` shape has no messages array at all) and `callOllama`
posts to `/api/generate`, not to the chat endpoint. -/
theorem proxy_flattens_counterexample :
    (convertOpenAIToOllama exTwoMsgReq).prompt = "user: Hello\nassistant: Hi" ∧
    ollamaPath = "/api/generate" ∧ ollamaPath ≠ transformerEndpoint :=
  ⟨rfl, rfl, by decide⟩

/-- Unfolding step of `String.intercalate`'s accumulator loop. -/
theorem intercalate_go_cons (s : String) : ∀ (bs : List String) (a b : String),
    String.intercalate.go a s (b :: bs) = a ++ s ++ String.intercalate.go b s bs := by
  intro bs
  induction bs with
  | nil =>
    intro a b
    rfl
  | cons c cs ih =>
    intro a b
    show String.intercalate.go (a ++ s ++ b) s (c :: cs)
      = a ++ s ++ String.intercalate.go b s (c :: cs)
    rw [ih, ih]
    simp [String.append_assoc]

/-- Joining the rendered `role: content` lines with newlines is exactly
the spec-side `flattenedPrompt`. -/
theorem flattenedPrompt_eq : ∀ ms : List Msg,
    String.intercalate "\n" (ms.map fun m => m.role ++ ": " ++ m.content)
      = flattenedPrompt ms := by
  intro ms
  induction ms with
  | nil => rfl
  | cons m rest ih =>
    cases rest with
    | nil => rfl
    | cons m' rest' =>
      show String.intercalate.go (m.role ++ ": " ++ m.content) "\n"
          ((m' :: rest').map fun m => m.role ++ ": " ++ m.content)
        = flattenedPrompt (m :: m' :: rest')
      rw [List.map_cons, intercalate_go_cons]
      show (m.role ++ ": " ++ m.content) ++ "\n"
          ++ String.intercalate "\n" ((m' :: rest').map fun m => m.role ++ ": " ++ m.content)
        = _
      rw [ih]
      rfl

/-- C4 (amended): for every canonical chat request the proxy flattens
the role-tagged messages into one prompt string of `role: content`
lines joined by newlines (`flattenedPrompt`) and targets the daemon's
`/api/generate` endpoint — it never builds a messages array for the
chat endpoint. -/
theorem proxy_flattens_messages (r : OpenAIRequest) :
    (convertOpenAIToOllama r).prompt = flattenedPrompt r.messages ∧
    ollamaPath = "/api/generate" :=
  ⟨flattenedPrompt_eq r.messages, rfl⟩

/-- Witness for the amended C4 at the concrete two-message request. -/
theorem proxy_flattens_messages_witness :
    (convertOpenAIToOllama exTwoMsgReq).prompt = flattenedPrompt exTwoMsgReq.messages ∧
    ollamaPath = "/api/generate" :=
  proxy_flattens_messages exTwoMsgReq

/-- Counterexample to C5 as stated: a request that explicitly supplies
`temperature: 0` and omits `max_tokens` is translated with the invented
defaults `num_predict = 100`, `temperature = 0.7`, `top_p = 0.9` — the
supplied 0 is not forwarded. -/
theorem sampling_defaults_counterexample :
    exZeroReq.temperature = some 0 ∧ exZeroReq.max_tokens = none ∧
    (convertOpenAIToOllama exZeroReq).options
      = { num_predict := 100, temperature := 7/10, top_p := 9/10 } ∧
    (7/10 : ℚ) ≠ 0 :=
  ⟨rfl, rfl, by simp [convertOpenAIToOllama, orRat, orNat, exZeroReq, exTwoMsgReq], by simp⟩

/-- C5 (amended): `temperature`, `top_p` and `max_tokens` are forwarded
verbatim under the daemon field names `options.temperature`,
`options.top_p`, `options.num_predict` only when supplied and nonzero; a
missing or zero value is replaced by the defaults 100 / 0.7 / 0.9. -/
theorem sampling_passthrough_amended :
    (∀ (r : OpenAIRequest) (n : Nat) (q p : ℚ),
      n ≠ 0 → q ≠ 0 → p ≠ 0 →
      r.max_tokens = some n → r.temperature = some q → r.top_p = some p →
      (convertOpenAIToOllama r).options
        = { num_predict := n, temperature := q, top_p := p }) ∧
    (∀ r : OpenAIRequest, r.max_tokens = none ∨ r.max_tokens = some 0 →
      (convertOpenAIToOllama r).options.num_predict = 100) ∧
    (∀ r : OpenAIRequest, r.temperature = none ∨ r.temperature = some 0 →
      (convertOpenAIToOllama r).options.temperature = 7/10) ∧
    (∀ r : OpenAIRequest, r.top_p = none ∨ r.top_p = some 0 →
      (convertOpenAIToOllama r).options.top_p = 9/10) := by
  refine ⟨?_, ?_, ?_, ?_⟩
  · intro r n q p hn hq hp hm ht htp
    simp [convertOpenAIToOllama, orNat, orRat, hm, ht, htp, hn, hq, hp]
  · intro r h
    rcases h with h | h <;> simp [convertOpenAIToOllama, orNat, h]
  · intro r h
    rcases h with h | h <;> simp [convertOpenAIToOllama, orRat, h]
  · intro r h
    rcases h with h | h <;> simp [convertOpenAIToOllama, orRat, h]

/-- Witness for the amended C5: nonzero supplied values pass through,
the zero temperature falls back to 0.7. -/
theorem sampling_passthrough_amended_witness :
    (convertOpenAIToOllama exFullReq).options
      = { num_predict := 42, temperature := 2, top_p := 3 } ∧
    (convertOpenAIToOllama exZeroReq).options.temperature = 7/10 :=
  ⟨sampling_passthrough_amended.1 exFullReq 42 2 3 (by decide) (by simp) (by simp) rfl rfl rfl,
   sampling_passthrough_amended.2.2.1 exZeroReq (Or.inr rfl)⟩

/-- Counterexample to C6 as stated: a daemon reply whose `done_reason`
is the non-canonical string `"banana"` is passed through verbatim as the
finish reason, which is neither `stop` nor `length`. -/
theorem finish_reason_counterexample :
    exWeirdBody.done_reason = some "banana" ∧
    (convertOllamaToOpenAI exWeirdBody exTwoMsgReq 0).choices.map ChatChoice.finish_reason
      = ["banana"] ∧
    ("banana" : String) ≠ "stop" ∧ ("banana" : String) ≠ "length" :=
  ⟨rfl, rfl, by decide, by decide⟩

/-- C6 (amended): the canonical reply's finish reason is the daemon's
`done_reason` passed through verbatim whenever it is present and
nonempty, and `"stop"` when it is missing or empty — no normalisation to
a canonical set happens. -/
theorem finish_reason_passthrough (resp : OllamaGenResponse)
    (orig : OpenAIRequest) (now : Nat) :
    (∀ s : String, s ≠ "" → resp.done_reason = some s →
      (convertOllamaToOpenAI resp orig now).choices.map ChatChoice.finish_reason = [s]) ∧
    ((resp.done_reason = none ∨ resp.done_reason = some "") →
      (convertOllamaToOpenAI resp orig now).choices.map ChatChoice.finish_reason = ["stop"]) := by
  constructor
  · intro s hs hr
    simp [convertOllamaToOpenAI, orStr, hr, hs]
  · intro h
    rcases h with h | h <;> simp [convertOllamaToOpenAI, orStr, h]

/-- Witness for the amended C6: the `"banana"` reason survives, and a
missing reason becomes `"stop"`. -/
theorem finish_reason_passthrough_witness :
    (convertOllamaToOpenAI exWeirdBody exTwoMsgReq 0).choices.map ChatChoice.finish_reason
      = ["banana"] ∧
    (convertOllamaToOpenAI exOkBody exTwoMsgReq 0).choices.map ChatChoice.finish_reason
      = ["stop"] :=
  ⟨(finish_reason_passthrough exWeirdBody exTwoMsgReq 0).1 "banana" (by decide) rfl,
   (finish_reason_passthrough exOkBody exTwoMsgReq 0).2 (Or.inl rfl)⟩

/-- C7: the ollama transformer's `transformResponse` is the identity on
the response, hence idempotent. -/
theorem transformResponse_identity (res : HttpResponse)
    (req : HttpRequest OpenAIRequest) :
    transformResponse res req = res ∧
    transformResponse (transformResponse res req) req = transformResponse res req :=
  ⟨rfl, rfl⟩

/-- C8: the canonical usage block satisfies
`total_tokens = prompt_tokens + completion_tokens`, with a missing
`prompt_eval_count` / `eval_count` counted as 0. -/
theorem usage_total_sum (resp : OllamaGenResponse) (orig : OpenAIRequest)
    (now : Nat) :
    (convertOllamaToOpenAI resp orig now).usage.total_tokens
      = (convertOllamaToOpenAI resp orig now).usage.prompt_tokens
        + (convertOllamaToOpenAI resp orig now).usage.completion_tokens ∧
    (convertOllamaToOpenAI resp orig now).usage.prompt_tokens
      = resp.prompt_eval_count.getD 0 ∧
    (convertOllamaToOpenAI resp orig now).usage.completion_tokens
      = resp.eval_count.getD 0 :=
  ⟨rfl, orNat_zero resp.prompt_eval_count, orNat_zero resp.eval_count⟩

/-- C9: the model string is forwarded with exactly one leading
`"ollama,"` tag removed: prepending the tag to any string strips back to
that string (so a second tag survives), a string without the leading tag
is forwarded unchanged (so a mid-string occurrence is kept), and this is
precisely the model field `convertOpenAIToOllama` emits. -/
theorem strip_provider_tag :
    (∀ s : String, stripProvider ("ollama," ++ s) = s) ∧
    (∀ s : String, ("ollama,".data).isPrefixOf s.data = false → stripProvider s = s) ∧
    (∀ r : OpenAIRequest, (convertOpenAIToOllama r).model = stripProvider r.model) := by
  refine ⟨?_, ?_, fun _ => rfl⟩
  · intro s
    obtain ⟨l⟩ := s
    show stripProvider ⟨"ollama,".data ++ l⟩ = ⟨l⟩
    simp [stripProvider]
  · intro s h
    simp [stripProvider, h]

/-- Witness for C9: a doubled tag loses only its first copy, and a
mid-string tag is untouched. -/
theorem strip_provider_tag_witness :
    stripProvider ("ollama," ++ "ollama,llama3") = "ollama,llama3" ∧
    stripProvider "xollama,y" = "xollama,y" :=
  ⟨strip_provider_tag.1 "ollama,llama3",
   strip_provider_tag.2.1 "xollama,y" (by decide)⟩

/-- C10: `transformRequest` rebuilds only the body — headers, method,
url, params and query are returned unchanged — and the rebuilt body's
`stream` is `true` exactly when the incoming body's `stream` was not the
explicit value `false`. -/
theorem transformRequest_frame (req : HttpRequest OpenAIRequest) :
    (transformRequest req).headers = req.headers ∧
    (transformRequest req).method = req.method ∧
    (transformRequest req).url = req.url ∧
    (transformRequest req).params = req.params ∧
    (transformRequest req).query = req.query ∧
    ((transformRequest req).body.stream = true ↔ req.body.stream ≠ some false) := by
  refine ⟨rfl, rfl, rfl, rfl, rfl, ?_⟩
  simp [transformRequest]

/-- Witness for C10 at a concrete request (whose body leaves `stream`
unset, so the rebuilt body streams). -/
theorem transformRequest_frame_witness :
    (transformRequest exHttpReq).headers = exHttpReq.headers ∧
    (transformRequest exHttpReq).method = exHttpReq.method ∧
    (transformRequest exHttpReq).url = exHttpReq.url ∧
    (transformRequest exHttpReq).params = exHttpReq.params ∧
    (transformRequest exHttpReq).query = exHttpReq.query ∧
    ((transformRequest exHttpReq).body.stream = true ↔ exHttpReq.body.stream ≠ some false) :=
  transformRequest_frame exHttpReq

end CCR
